import Mathlib

/-!
Verification development for the Hyperdrive config client
(`hyperdrive.go` of the cloudflare-go repository).

The file is shallow-embedded: the Go data model becomes Lean structures,
the five CRUD operations become pure Lean functions parameterised by the
API-client collaborator (`makeRequestContext`), and the JSON layer
(goccy/go-json, compatible with encoding/json) is modelled at the level
of JSON values, with a `RawBytes` type distinguishing response bytes that
parse as JSON from malformed bytes.

Each operation returns the Go result pair (value, error) together with
the list of requests it handed to the collaborator, so that properties
of the form "no network call is performed" are expressible.
-/

namespace Hyperdrive

/-- JSON values. Numbers are modelled as integers: every numeric field in
this data model is a Go `int`, and no claim exercises fractional numbers. -/
inductive Json where
  | null
  | bool (b : Bool)
  | num (n : Int)
  | str (s : String)
  | arr (elems : List Json)
  | obj (entries : List (String × Json))

/-- Keys of a JSON object (empty for every other JSON value). -/
def jsonKeys : Json → List String
  | .obj entries => entries.map (fun kv => kv.fst)
  | _ => []

/-- Origin of a Hyperdrive config, from the Go struct
`HyperdriveConfigOrigin`. Defaults are the Go zero values. -/
structure HyperdriveConfigOrigin where
  Database : String := ""
  Host : String := ""
  Port : Int := 0
  Scheme : String := ""
  User : String := ""
deriving DecidableEq, Repr

/-- Caching policy of a Hyperdrive config, from the Go struct
`HyperdriveConfigCaching`. The Go field `Disabled *bool` is a nullable
boolean, modelled as `Option Bool` (`none` is the nil pointer). -/
structure HyperdriveConfigCaching where
  Disabled : Option Bool := none
  MaxAge : Int := 0
  StaleWhileRevalidate : Int := 0
deriving DecidableEq, Repr

/-- A Hyperdrive config, from the Go struct `HyperdriveConfig`. -/
structure HyperdriveConfig where
  ID : String := ""
  Name : String := ""
  Origin : HyperdriveConfigOrigin := {}
  Caching : HyperdriveConfigCaching := {}
deriving DecidableEq, Repr

/-- Response envelope for the list operation, from the Go struct
`HyperdriveConfigListResponse`. The embedded `Response` metadata
(success flag, messages) is not modelled: the operations never read it. -/
structure HyperdriveConfigListResponse where
  Result : List HyperdriveConfig := []
deriving DecidableEq, Repr

/-- Response envelope for single-config operations, from the Go struct
`HyperdriveConfigResponse`. The embedded `Response` metadata is not
modelled: the operations never read it. -/
structure HyperdriveConfigResponse where
  Result : HyperdriveConfig := {}
deriving DecidableEq, Repr

/-- Parameters of the create operation, from the Go struct
`CreateHyperdriveConfigParams`. -/
structure CreateHyperdriveConfigParams where
  Name : String := ""
  Password : String := ""
  Origin : HyperdriveConfigOrigin := {}
  Caching : HyperdriveConfigCaching := {}
deriving DecidableEq, Repr

/-- Parameters of the update operation, from the Go struct
`UpdateHyperdriveConfigParams`. `HyperdriveID` carries the json tag
`"-"` in Go, so serialization skips it. -/
structure UpdateHyperdriveConfigParams where
  HyperdriveID : String := ""
  Name : String := ""
  Password : String := ""
  Origin : HyperdriveConfigOrigin := {}
  Caching : HyperdriveConfigCaching := {}
deriving DecidableEq, Repr

/-- Parameters of the list operation, from the Go struct
`ListHyperdriveConfigParams`: an empty placeholder. -/
structure ListHyperdriveConfigParams where
deriving DecidableEq, Repr

/-- Modelled from the spec: the account container (`ResourceContainer`,
defined elsewhere in the repository) is the caller-supplied scope; the
operations read only its `Identifier` field. -/
structure ResourceContainer where
  Identifier : String := ""
deriving DecidableEq, Repr

/-- Go error values as this file can produce or propagate them: the four
sentinel errors, an opaque error from the API-client collaborator
(`transport`), an opaque error from `json.Unmarshal` (`jsonError`), and
a `fmt.Errorf` wrap of an inner error behind a marker message. -/
inductive GoError where
  | errMissingAccountID
  | errMissingHyperdriveConfigID
  | errMissingHyperdriveConfigName
  | errMissingHyperdriveConfigPassword
  | transport (e : String)
  | jsonError (msg : String)
  | wrapped (marker : String) (inner : GoError)
deriving DecidableEq, Repr

/-- Modelled from the spec: marker string `errMakeRequestError` defined in
the repository outside this file; only its identity matters here. -/
def errMakeRequestError : String := "error from makeRequest"

/-- Modelled from the spec: marker string `errUnmarshalError` defined in
the repository outside this file; only its identity matters here. -/
def errUnmarshalError : String := "error unmarshalling the JSON response"

/-- Whether an error (if any) is a wrap behind the given marker. -/
def isWrappedWith (marker : String) : Option GoError → Bool
  | some (.wrapped m _) => m == marker
  | _ => false

/-- Whether an error (if any) came verbatim from the collaborator. -/
def isTransportErr : Option GoError → Bool
  | some (.transport _) => true
  | _ => false

/-! ### JSON marshaling of the parameter structs

Faithful to encoding/json with the struct tags of the source: fields are
emitted in declaration order under their tag names; `omitempty` drops a
field at its zero value (empty string, zero number, nil pointer); struct-
typed fields are always emitted (`omitempty` has no effect on structs);
a field tagged `"-"` is never emitted. -/

/-- Marshal `HyperdriveConfigOrigin` (all fields tagged `omitempty`). -/
def marshalOrigin (o : HyperdriveConfigOrigin) : Json :=
  .obj ((if o.Database = "" then [] else [("database", .str o.Database)])
    ++ (if o.Host = "" then [] else [("host", .str o.Host)])
    ++ (if o.Port = 0 then [] else [("port", .num o.Port)])
    ++ (if o.Scheme = "" then [] else [("scheme", .str o.Scheme)])
    ++ (if o.User = "" then [] else [("user", .str o.User)]))

/-- Marshal `HyperdriveConfigCaching` (all fields tagged `omitempty`;
the nil pointer is omitted, a pointer to `false` is emitted as `false`). -/
def marshalCaching (c : HyperdriveConfigCaching) : Json :=
  .obj ((match c.Disabled with
      | none => []
      | some b => [("disabled", .bool b)])
    ++ (if c.MaxAge = 0 then [] else [("max_age", .num c.MaxAge)])
    ++ (if c.StaleWhileRevalidate = 0 then []
        else [("stale_while_revalidate", .num c.StaleWhileRevalidate)]))

/-- Marshal `CreateHyperdriveConfigParams`: `name`, `password`, `origin`
have no `omitempty`; `caching` has `omitempty` but, being a struct, is
always emitted. -/
def marshalCreateParams (p : CreateHyperdriveConfigParams) : Json :=
  .obj [("name", .str p.Name), ("password", .str p.Password),
    ("origin", marshalOrigin p.Origin), ("caching", marshalCaching p.Caching)]

/-- Marshal `UpdateHyperdriveConfigParams`: identical to the create
parameters; `HyperdriveID` is tagged `"-"` and never emitted. -/
def marshalUpdateParams (p : UpdateHyperdriveConfigParams) : Json :=
  .obj [("name", .str p.Name), ("password", .str p.Password),
    ("origin", marshalOrigin p.Origin), ("caching", marshalCaching p.Caching)]

/-! ### JSON unmarshaling into the response structs

Faithful to encoding/json on the shapes these claims exercise: an object
is decoded entry by entry in order, each recognised key updating its
field (so a later duplicate wins), unknown keys ignored; `null` is a
no-op for non-pointer fields and sets a pointer field to nil; a type
mismatch is an error. Only exact (lower-case) tag names are matched: the
case-insensitive fallback of encoding/json is not exercised by any claim. -/

/-- Decode a JSON value into a string field holding `cur`. -/
def decodeStringField (cur : String) : Json → Except String String
  | .str s => .ok s
  | .null => .ok cur
  | _ => .error "json: cannot unmarshal value into Go string field"

/-- Decode a JSON value into an int field holding `cur`. -/
def decodeIntField (cur : Int) : Json → Except String Int
  | .num n => .ok n
  | .null => .ok cur
  | _ => .error "json: cannot unmarshal value into Go int field"

/-- Apply one JSON object entry to a `HyperdriveConfigOrigin` value. -/
def originSetField (o : HyperdriveConfigOrigin) :
    String × Json → Except String HyperdriveConfigOrigin
  | ("database", v) => (decodeStringField o.Database v).map
      (fun s => { o with Database := s })
  | ("host", v) => (decodeStringField o.Host v).map
      (fun s => { o with Host := s })
  | ("port", v) => (decodeIntField o.Port v).map
      (fun n => { o with Port := n })
  | ("scheme", v) => (decodeStringField o.Scheme v).map
      (fun s => { o with Scheme := s })
  | ("user", v) => (decodeStringField o.User v).map
      (fun s => { o with User := s })
  | _ => .ok o

/-- Decode a JSON value into a `HyperdriveConfigOrigin` field holding `o`. -/
def decodeOriginInto (o : HyperdriveConfigOrigin) :
    Json → Except String HyperdriveConfigOrigin
  | .obj entries => entries.foldlM originSetField o
  | .null => .ok o
  | _ => .error "json: cannot unmarshal value into HyperdriveConfigOrigin"

/-- Apply one JSON object entry to a `HyperdriveConfigCaching` value. -/
def cachingSetField (c : HyperdriveConfigCaching) :
    String × Json → Except String HyperdriveConfigCaching
  | ("disabled", .bool b) => .ok { c with Disabled := some b }
  | ("disabled", .null) => .ok { c with Disabled := none }
  | ("disabled", _) => .error "json: cannot unmarshal value into Go bool pointer"
  | ("max_age", v) => (decodeIntField c.MaxAge v).map
      (fun n => { c with MaxAge := n })
  | ("stale_while_revalidate", v) => (decodeIntField c.StaleWhileRevalidate v).map
      (fun n => { c with StaleWhileRevalidate := n })
  | _ => .ok c

/-- Decode a JSON value into a `HyperdriveConfigCaching` field holding `c`. -/
def decodeCachingInto (c : HyperdriveConfigCaching) :
    Json → Except String HyperdriveConfigCaching
  | .obj entries => entries.foldlM cachingSetField c
  | .null => .ok c
  | _ => .error "json: cannot unmarshal value into HyperdriveConfigCaching"

/-- Decode a JSON value into a `HyperdriveConfigCaching` from zero, as
`json.Unmarshal` does for a fresh value. -/
def decodeCaching (j : Json) : Except String HyperdriveConfigCaching :=
  decodeCachingInto {} j

/-- Apply one JSON object entry to a `HyperdriveConfig` value. -/
def configSetField (c : HyperdriveConfig) :
    String × Json → Except String HyperdriveConfig
  | ("id", v) => (decodeStringField c.ID v).map (fun s => { c with ID := s })
  | ("name", v) => (decodeStringField c.Name v).map (fun s => { c with Name := s })
  | ("origin", v) => (decodeOriginInto c.Origin v).map
      (fun o => { c with Origin := o })
  | ("caching", v) => (decodeCachingInto c.Caching v).map
      (fun x => { c with Caching := x })
  | _ => .ok c

/-- Decode a JSON value into a `HyperdriveConfig` field holding `c`. -/
def decodeConfigInto (c : HyperdriveConfig) : Json → Except String HyperdriveConfig
  | .obj entries => entries.foldlM configSetField c
  | .null => .ok c
  | _ => .error "json: cannot unmarshal value into HyperdriveConfig"

/-- Decode a JSON value into a `[]HyperdriveConfig` slice holding `cur`:
each array element is decoded into a fresh zero config. -/
def decodeConfigListInto (cur : List HyperdriveConfig) :
    Json → Except String (List HyperdriveConfig)
  | .arr elems => elems.mapM (decodeConfigInto {})
  | .null => .ok cur
  | _ => .error "json: cannot unmarshal value into Go slice"

/-- Apply one JSON object entry to a `HyperdriveConfigListResponse`. -/
def listEnvSetField (r : HyperdriveConfigListResponse) :
    String × Json → Except String HyperdriveConfigListResponse
  | ("result", v) => (decodeConfigListInto r.Result v).map
      (fun x => { Result := x })
  | _ => .ok r

/-- Decode a JSON value into a `HyperdriveConfigListResponse`. -/
def decodeListEnvelope : Json → Except String HyperdriveConfigListResponse
  | .obj entries => entries.foldlM listEnvSetField {}
  | .null => .ok {}
  | _ => .error "json: cannot unmarshal value into HyperdriveConfigListResponse"

/-- Apply one JSON object entry to a `HyperdriveConfigResponse`. -/
def envSetField (r : HyperdriveConfigResponse) :
    String × Json → Except String HyperdriveConfigResponse
  | ("result", v) => (decodeConfigInto r.Result v).map (fun x => { Result := x })
  | _ => .ok r

/-- Decode a JSON value into a `HyperdriveConfigResponse`. -/
def decodeEnvelope : Json → Except String HyperdriveConfigResponse
  | .obj entries => entries.foldlM envSetField {}
  | .null => .ok {}
  | _ => .error "json: cannot unmarshal value into HyperdriveConfigResponse"

/-- Raw response bytes from the collaborator: either bytes that parse as
a JSON value, or malformed bytes carrying an opaque parse-error text. -/
inductive RawBytes where
  | valid (j : Json)
  | invalid (msg : String)

/-- The `json.Unmarshal` call of the list operation. -/
def unmarshalListResponse : RawBytes → Except String HyperdriveConfigListResponse
  | .valid j => decodeListEnvelope j
  | .invalid m => .error m

/-- The `json.Unmarshal` call of the create, get and update operations. -/
def unmarshalConfigResponse : RawBytes → Except String HyperdriveConfigResponse
  | .valid j => decodeEnvelope j
  | .invalid m => .error m

/-! ### The operations -/

/-- One request handed to the collaborator: HTTP method, URI, and the
JSON serialization of the body parameter when one is passed. -/
structure Request where
  method : String
  uri : String
  body : Option Json

/-- The API-client collaborator (`api.makeRequestContext`): performs one
HTTP request and returns raw response bytes or an opaque error. -/
def ApiClient : Type := Request → Except String RawBytes

/-- Result of one operation: the Go return pair (value, error) together
with the requests handed to the collaborator. -/
structure OpResult (α : Type) where
  value : α
  error : Option GoError
  calls : List Request

/-- URI `/accounts/{account_id}/hyperdrive/configs`. -/
def hyperdriveConfigsURI (acct : String) : String :=
  "/accounts/" ++ acct ++ "/hyperdrive/configs"

/-- URI `/accounts/{account_id}/hyperdrive/configs/{config_id}`. -/
def hyperdriveConfigURI (acct cfgId : String) : String :=
  hyperdriveConfigsURI acct ++ "/" ++ cfgId

/-- The request built by `ListHyperdriveConfigs`. -/
def listRequest (rc : ResourceContainer) : Request :=
  { method := "GET", uri := hyperdriveConfigsURI rc.Identifier, body := none }

/-- `ListHyperdriveConfigs` from the source: reject an empty account id,
GET the collection URI, unmarshal the list envelope, return its result. -/
def ListHyperdriveConfigs (api : ApiClient) (rc : ResourceContainer)
    (_params : ListHyperdriveConfigParams) : OpResult (List HyperdriveConfig) :=
  if rc.Identifier = "" then
    { value := [], error := some .errMissingAccountID, calls := [] }
  else
    match api (listRequest rc) with
    | .error e =>
        { value := [], error := some (.transport e), calls := [listRequest rc] }
    | .ok res =>
        match unmarshalListResponse res with
        | .error m =>
            { value := [],
              error := some (.wrapped "failed to unmarshal filters JSON data"
                (.jsonError m)),
              calls := [listRequest rc] }
        | .ok r =>
            { value := r.Result, error := none, calls := [listRequest rc] }

/-- The request built by `CreateHyperdriveConfig`. -/
def createRequest (rc : ResourceContainer)
    (params : CreateHyperdriveConfigParams) : Request :=
  { method := "POST", uri := hyperdriveConfigsURI rc.Identifier,
    body := some (marshalCreateParams params) }

/-- `CreateHyperdriveConfig` from the source: reject an empty account id,
then an empty name, then an empty password; POST the collection URI with
the params as body, unmarshal the envelope, return its result. -/
def CreateHyperdriveConfig (api : ApiClient) (rc : ResourceContainer)
    (params : CreateHyperdriveConfigParams) : OpResult HyperdriveConfig :=
  if rc.Identifier = "" then
    { value := {}, error := some .errMissingAccountID, calls := [] }
  else if params.Name = "" then
    { value := {}, error := some .errMissingHyperdriveConfigName, calls := [] }
  else if params.Password = "" then
    { value := {}, error := some .errMissingHyperdriveConfigPassword, calls := [] }
  else
    match api (createRequest rc params) with
    | .error e =>
        { value := {}, error := some (.transport e),
          calls := [createRequest rc params] }
    | .ok res =>
        match unmarshalConfigResponse res with
        | .error m =>
            { value := {},
              error := some (.wrapped errUnmarshalError (.jsonError m)),
              calls := [createRequest rc params] }
        | .ok r =>
            { value := r.Result, error := none,
              calls := [createRequest rc params] }

/-- The request built by `DeleteHyperdriveConfig`. -/
def deleteRequest (rc : ResourceContainer) (hyperdriveID : String) : Request :=
  { method := "DELETE", uri := hyperdriveConfigURI rc.Identifier hyperdriveID,
    body := none }

/-- `DeleteHyperdriveConfig` from the source: reject an empty account id,
then an empty config id; DELETE the element URI; a collaborator error is
wrapped behind `errMakeRequestError`. -/
def DeleteHyperdriveConfig (api : ApiClient) (rc : ResourceContainer)
    (hyperdriveID : String) : OpResult Unit :=
  if rc.Identifier = "" then
    { value := (), error := some .errMissingAccountID, calls := [] }
  else if hyperdriveID = "" then
    { value := (), error := some .errMissingHyperdriveConfigID, calls := [] }
  else
    match api (deleteRequest rc hyperdriveID) with
    | .error e =>
        { value := (),
          error := some (.wrapped errMakeRequestError (.transport e)),
          calls := [deleteRequest rc hyperdriveID] }
    | .ok _ =>
        { value := (), error := none, calls := [deleteRequest rc hyperdriveID] }

/-- The request built by `GetHyperdriveConfig`. -/
def getRequest (rc : ResourceContainer) (hyperdriveID : String) : Request :=
  { method := "GET", uri := hyperdriveConfigURI rc.Identifier hyperdriveID,
    body := none }

/-- `GetHyperdriveConfig` from the source: reject an empty account id,
then an empty config id; GET the element URI, unmarshal the envelope,
return its result. -/
def GetHyperdriveConfig (api : ApiClient) (rc : ResourceContainer)
    (hyperdriveID : String) : OpResult HyperdriveConfig :=
  if rc.Identifier = "" then
    { value := {}, error := some .errMissingAccountID, calls := [] }
  else if hyperdriveID = "" then
    { value := {}, error := some .errMissingHyperdriveConfigID, calls := [] }
  else
    match api (getRequest rc hyperdriveID) with
    | .error e =>
        { value := {}, error := some (.transport e),
          calls := [getRequest rc hyperdriveID] }
    | .ok res =>
        match unmarshalConfigResponse res with
        | .error m =>
            { value := {},
              error := some (.wrapped errUnmarshalError (.jsonError m)),
              calls := [getRequest rc hyperdriveID] }
        | .ok r =>
            { value := r.Result, error := none,
              calls := [getRequest rc hyperdriveID] }

/-- The request built by `UpdateHyperdriveConfig`. -/
def updateRequest (rc : ResourceContainer)
    (params : UpdateHyperdriveConfigParams) : Request :=
  { method := "PUT", uri := hyperdriveConfigURI rc.Identifier params.HyperdriveID,
    body := some (marshalUpdateParams params) }

/-- `UpdateHyperdriveConfig` from the source: reject an empty account id,
then an empty config id; PUT the element URI with the params as body,
unmarshal the envelope, return its result. -/
def UpdateHyperdriveConfig (api : ApiClient) (rc : ResourceContainer)
    (params : UpdateHyperdriveConfigParams) : OpResult HyperdriveConfig :=
  if rc.Identifier = "" then
    { value := {}, error := some .errMissingAccountID, calls := [] }
  else if params.HyperdriveID = "" then
    { value := {}, error := some .errMissingHyperdriveConfigID, calls := [] }
  else
    match api (updateRequest rc params) with
    | .error e =>
        { value := {}, error := some (.transport e),
          calls := [updateRequest rc params] }
    | .ok res =>
        match unmarshalConfigResponse res with
        | .error m =>
            { value := {},
              error := some (.wrapped errUnmarshalError (.jsonError m)),
              calls := [updateRequest rc params] }
        | .ok r =>
            { value := r.Result, error := none,
              calls := [updateRequest rc params] }

/-! ### Helper lemmas -/

/-- Every branch of the list operation returns either no error or the
empty list. -/
theorem list_error_or_zero (api : ApiClient) (rc : ResourceContainer)
    (lp : ListHyperdriveConfigParams) :
    (ListHyperdriveConfigs api rc lp).error = none ∨
      (ListHyperdriveConfigs api rc lp).value = [] := by
  by_cases h : rc.Identifier = ""
  · simp [ListHyperdriveConfigs, h]
  · cases hres : api (listRequest rc) with
    | error e => simp [ListHyperdriveConfigs, h, hres]
    | ok res =>
      cases hdec : unmarshalListResponse res with
      | error m => simp [ListHyperdriveConfigs, h, hres, hdec]
      | ok r => simp [ListHyperdriveConfigs, h, hres, hdec]

/-- Every branch of the create operation returns either no error or the
zero config. -/
theorem create_error_or_zero (api : ApiClient) (rc : ResourceContainer)
    (cp : CreateHyperdriveConfigParams) :
    (CreateHyperdriveConfig api rc cp).error = none ∨
      (CreateHyperdriveConfig api rc cp).value = {} := by
  by_cases h : rc.Identifier = ""
  · simp [CreateHyperdriveConfig, h]
  · by_cases hn : cp.Name = ""
    · simp [CreateHyperdriveConfig, h, hn]
    · by_cases hp : cp.Password = ""
      · simp [CreateHyperdriveConfig, h, hn, hp]
      · cases hres : api (createRequest rc cp) with
        | error e => simp [CreateHyperdriveConfig, h, hn, hp, hres]
        | ok res =>
          cases hdec : unmarshalConfigResponse res with
          | error m => simp [CreateHyperdriveConfig, h, hn, hp, hres, hdec]
          | ok r => simp [CreateHyperdriveConfig, h, hn, hp, hres, hdec]

/-- Every branch of the get operation returns either no error or the
zero config. -/
theorem get_error_or_zero (api : ApiClient) (rc : ResourceContainer)
    (gid : String) :
    (GetHyperdriveConfig api rc gid).error = none ∨
      (GetHyperdriveConfig api rc gid).value = {} := by
  by_cases h : rc.Identifier = ""
  · simp [GetHyperdriveConfig, h]
  · by_cases hg : gid = ""
    · simp [GetHyperdriveConfig, h, hg]
    · cases hres : api (getRequest rc gid) with
      | error e => simp [GetHyperdriveConfig, h, hg, hres]
      | ok res =>
        cases hdec : unmarshalConfigResponse res with
        | error m => simp [GetHyperdriveConfig, h, hg, hres, hdec]
        | ok r => simp [GetHyperdriveConfig, h, hg, hres, hdec]

/-- Every branch of the update operation returns either no error or the
zero config. -/
theorem update_error_or_zero (api : ApiClient) (rc : ResourceContainer)
    (up : UpdateHyperdriveConfigParams) :
    (UpdateHyperdriveConfig api rc up).error = none ∨
      (UpdateHyperdriveConfig api rc up).value = {} := by
  by_cases h : rc.Identifier = ""
  · simp [UpdateHyperdriveConfig, h]
  · by_cases hu : up.HyperdriveID = ""
    · simp [UpdateHyperdriveConfig, h, hu]
    · cases hres : api (updateRequest rc up) with
      | error e => simp [UpdateHyperdriveConfig, h, hu, hres]
      | ok res =>
        cases hdec : unmarshalConfigResponse res with
        | error m => simp [UpdateHyperdriveConfig, h, hu, hres, hdec]
        | ok r => simp [UpdateHyperdriveConfig, h, hu, hres, hdec]

/-- When validation passes, the list operation hands exactly its one
request to the collaborator, whatever the outcome. -/
theorem list_calls_eq (api : ApiClient) (rc : ResourceContainer)
    (lp : ListHyperdriveConfigParams) (h : ¬ rc.Identifier = "") :
    (ListHyperdriveConfigs api rc lp).calls = [listRequest rc] := by
  cases hres : api (listRequest rc) with
  | error e => simp [ListHyperdriveConfigs, h, hres]
  | ok res =>
    cases hdec : unmarshalListResponse res with
    | error m => simp [ListHyperdriveConfigs, h, hres, hdec]
    | ok r => simp [ListHyperdriveConfigs, h, hres, hdec]

/-- When validation passes, the create operation hands exactly its one
request to the collaborator, whatever the outcome. -/
theorem create_calls_eq (api : ApiClient) (rc : ResourceContainer)
    (cp : CreateHyperdriveConfigParams) (h : ¬ rc.Identifier = "")
    (hn : ¬ cp.Name = "") (hp : ¬ cp.Password = "") :
    (CreateHyperdriveConfig api rc cp).calls = [createRequest rc cp] := by
  cases hres : api (createRequest rc cp) with
  | error e => simp [CreateHyperdriveConfig, h, hn, hp, hres]
  | ok res =>
    cases hdec : unmarshalConfigResponse res with
    | error m => simp [CreateHyperdriveConfig, h, hn, hp, hres, hdec]
    | ok r => simp [CreateHyperdriveConfig, h, hn, hp, hres, hdec]

/-- When validation passes, the get operation hands exactly its one
request to the collaborator, whatever the outcome. -/
theorem get_calls_eq (api : ApiClient) (rc : ResourceContainer)
    (gid : String) (h : ¬ rc.Identifier = "") (hg : ¬ gid = "") :
    (GetHyperdriveConfig api rc gid).calls = [getRequest rc gid] := by
  cases hres : api (getRequest rc gid) with
  | error e => simp [GetHyperdriveConfig, h, hg, hres]
  | ok res =>
    cases hdec : unmarshalConfigResponse res with
    | error m => simp [GetHyperdriveConfig, h, hg, hres, hdec]
    | ok r => simp [GetHyperdriveConfig, h, hg, hres, hdec]

/-- When validation passes, the update operation hands exactly its one
request to the collaborator, whatever the outcome. -/
theorem update_calls_eq (api : ApiClient) (rc : ResourceContainer)
    (up : UpdateHyperdriveConfigParams) (h : ¬ rc.Identifier = "")
    (hu : ¬ up.HyperdriveID = "") :
    (UpdateHyperdriveConfig api rc up).calls = [updateRequest rc up] := by
  cases hres : api (updateRequest rc up) with
  | error e => simp [UpdateHyperdriveConfig, h, hu, hres]
  | ok res =>
    cases hdec : unmarshalConfigResponse res with
    | error m => simp [UpdateHyperdriveConfig, h, hu, hres, hdec]
    | ok r => simp [UpdateHyperdriveConfig, h, hu, hres, hdec]

/-- When validation passes, the delete operation hands exactly its one
request to the collaborator, whatever the outcome. -/
theorem delete_calls_eq (api : ApiClient) (rc : ResourceContainer)
    (did : String) (h : ¬ rc.Identifier = "") (hd : ¬ did = "") :
    (DeleteHyperdriveConfig api rc did).calls = [deleteRequest rc did] := by
  cases hres : api (deleteRequest rc did) with
  | error e => simp [DeleteHyperdriveConfig, h, hd, hres]
  | ok res => simp [DeleteHyperdriveConfig, h, hd, hres]

/-! ### Theorems -/

/-- C1: for every one of the five operations, an empty account identifier
in the resource container yields `ErrMissingAccountID` and the operation
hands no request to the API-client collaborator. -/
theorem hyperdrive_emptyAccount_sentinel_noCall (api : ApiClient)
    (rc : ResourceContainer) (lp : ListHyperdriveConfigParams)
    (cp : CreateHyperdriveConfigParams) (up : UpdateHyperdriveConfigParams)
    (cfgId : String) (h : rc.Identifier = "") :
    (ListHyperdriveConfigs api rc lp).error = some .errMissingAccountID ∧
    (ListHyperdriveConfigs api rc lp).calls = [] ∧
    (CreateHyperdriveConfig api rc cp).error = some .errMissingAccountID ∧
    (CreateHyperdriveConfig api rc cp).calls = [] ∧
    (GetHyperdriveConfig api rc cfgId).error = some .errMissingAccountID ∧
    (GetHyperdriveConfig api rc cfgId).calls = [] ∧
    (UpdateHyperdriveConfig api rc up).error = some .errMissingAccountID ∧
    (UpdateHyperdriveConfig api rc up).calls = [] ∧
    (DeleteHyperdriveConfig api rc cfgId).error = some .errMissingAccountID ∧
    (DeleteHyperdriveConfig api rc cfgId).calls = [] := by
  simp [ListHyperdriveConfigs, CreateHyperdriveConfig, GetHyperdriveConfig,
    UpdateHyperdriveConfig, DeleteHyperdriveConfig, h]

/-- Witness for C1 at a concrete empty account container. -/
theorem hyperdrive_emptyAccount_sentinel_noCall_witness :
    (ResourceContainer.mk "").Identifier = "" ∧
    ((ListHyperdriveConfigs (fun _ => .error "boom") ⟨""⟩ {}).error
        = some .errMissingAccountID ∧
      (ListHyperdriveConfigs (fun _ => .error "boom") ⟨""⟩ {}).calls = [] ∧
      (CreateHyperdriveConfig (fun _ => .error "boom") ⟨""⟩ {}).error
        = some .errMissingAccountID ∧
      (CreateHyperdriveConfig (fun _ => .error "boom") ⟨""⟩ {}).calls = [] ∧
      (GetHyperdriveConfig (fun _ => .error "boom") ⟨""⟩ "h1").error
        = some .errMissingAccountID ∧
      (GetHyperdriveConfig (fun _ => .error "boom") ⟨""⟩ "h1").calls = [] ∧
      (UpdateHyperdriveConfig (fun _ => .error "boom") ⟨""⟩ {}).error
        = some .errMissingAccountID ∧
      (UpdateHyperdriveConfig (fun _ => .error "boom") ⟨""⟩ {}).calls = [] ∧
      (DeleteHyperdriveConfig (fun _ => .error "boom") ⟨""⟩ "h1").error
        = some .errMissingAccountID ∧
      (DeleteHyperdriveConfig (fun _ => .error "boom") ⟨""⟩ "h1").calls = []) :=
  ⟨rfl, hyperdrive_emptyAccount_sentinel_noCall
    (fun _ => .error "boom") ⟨""⟩ {} {} {} "h1" rfl⟩

/-- C2: for create with a non-empty account identifier, an empty name
yields `ErrMissingHyperdriveConfigName` (whatever the password, so both
empty also yields the name error), and a non-empty name with an empty
password yields `ErrMissingHyperdriveConfigPassword`: the password check
is reached only after the name check passes. -/
theorem hyperdrive_create_validation_order (api : ApiClient)
    (rc : ResourceContainer) (cp : CreateHyperdriveConfigParams)
    (hacc : ¬ rc.Identifier = "") :
    (cp.Name = "" →
      (CreateHyperdriveConfig api rc cp).error
        = some .errMissingHyperdriveConfigName) ∧
    (¬ cp.Name = "" → cp.Password = "" →
      (CreateHyperdriveConfig api rc cp).error
        = some .errMissingHyperdriveConfigPassword) := by
  constructor
  · intro hn
    simp [CreateHyperdriveConfig, hacc, hn]
  · intro hn hp
    simp [CreateHyperdriveConfig, hacc, hn, hp]

/-- Witness for C2: with account id `a`, both name and password empty
gives the name error; name `n` and empty password gives the password
error. -/
theorem hyperdrive_create_validation_order_witness :
    (CreateHyperdriveConfig (fun _ => .error "boom") ⟨"a"⟩ {}).error
      = some .errMissingHyperdriveConfigName ∧
    (CreateHyperdriveConfig (fun _ => .error "boom") ⟨"a"⟩
        { Name := "n" }).error
      = some .errMissingHyperdriveConfigPassword :=
  ⟨(hyperdrive_create_validation_order (fun _ => .error "boom") ⟨"a"⟩ {}
      (by decide)).1 rfl,
    (hyperdrive_create_validation_order (fun _ => .error "boom") ⟨"a"⟩
      { Name := "n" } (by decide)).2 (by decide) rfl⟩

/-- C3 counterexample: with both the account identifier and the config id
empty, `GetHyperdriveConfig` returns `ErrMissingAccountID`, not
`ErrMissingHyperdriveConfigID`, so the missing-config-id error is not
independent of the account identifier. -/
theorem hyperdrive_emptyConfigID_accountPrecedence_cex :
    (GetHyperdriveConfig (fun _ => .error "down") ⟨""⟩ "").error
      = some .errMissingAccountID ∧
    ¬ (GetHyperdriveConfig (fun _ => .error "down") ⟨""⟩ "").error
      = some .errMissingHyperdriveConfigID := by
  decide

/-- C3 amended: for get, update and delete with a NON-EMPTY account
identifier, an empty config id yields `ErrMissingHyperdriveConfigID`;
with an empty account identifier the missing-account-id check fires
first. -/
theorem hyperdrive_emptyConfigID_sentinel (api : ApiClient)
    (rc : ResourceContainer) (up : UpdateHyperdriveConfigParams)
    (gid did : String) (hacc : ¬ rc.Identifier = "") (hg : gid = "")
    (hu : up.HyperdriveID = "") (hd : did = "") :
    (GetHyperdriveConfig api rc gid).error
      = some .errMissingHyperdriveConfigID ∧
    (UpdateHyperdriveConfig api rc up).error
      = some .errMissingHyperdriveConfigID ∧
    (DeleteHyperdriveConfig api rc did).error
      = some .errMissingHyperdriveConfigID := by
  simp [GetHyperdriveConfig, UpdateHyperdriveConfig, DeleteHyperdriveConfig,
    hacc, hg, hu, hd]

/-- Witness for C3 amended at account id `a` and empty config ids. -/
theorem hyperdrive_emptyConfigID_sentinel_witness :
    (GetHyperdriveConfig (fun _ => .error "down") ⟨"a"⟩ "").error
      = some .errMissingHyperdriveConfigID ∧
    (UpdateHyperdriveConfig (fun _ => .error "down") ⟨"a"⟩ {}).error
      = some .errMissingHyperdriveConfigID ∧
    (DeleteHyperdriveConfig (fun _ => .error "down") ⟨"a"⟩ "").error
      = some .errMissingHyperdriveConfigID :=
  hyperdrive_emptyConfigID_sentinel (fun _ => .error "down") ⟨"a"⟩ {} "" ""
    (by decide) rfl rfl rfl

/-- C4: for each decode-dependent operation (list, create, get, update),
when the collaborator succeeds but its bytes fail to unmarshal into the
envelope type, the operation returns the unmarshal error wrapped behind
a decode marker, which is not a transport error, and the zero value. -/
theorem hyperdrive_decode_error_marked (rc : ResourceContainer)
    (rawL rawC rawG rawU : RawBytes) (eL eC eG eU : String)
    (cp : CreateHyperdriveConfigParams) (up : UpdateHyperdriveConfigParams)
    (gid : String) (hacc : ¬ rc.Identifier = "") (hn : ¬ cp.Name = "")
    (hp : ¬ cp.Password = "") (hg : ¬ gid = "") (hu : ¬ up.HyperdriveID = "")
    (hL : unmarshalListResponse rawL = .error eL)
    (hC : unmarshalConfigResponse rawC = .error eC)
    (hG : unmarshalConfigResponse rawG = .error eG)
    (hU : unmarshalConfigResponse rawU = .error eU) :
    ((ListHyperdriveConfigs (fun _ => .ok rawL) rc {}).error
        = some (.wrapped "failed to unmarshal filters JSON data"
          (.jsonError eL)) ∧
      isTransportErr (ListHyperdriveConfigs (fun _ => .ok rawL) rc {}).error
        = false ∧
      (ListHyperdriveConfigs (fun _ => .ok rawL) rc {}).value = []) ∧
    ((CreateHyperdriveConfig (fun _ => .ok rawC) rc cp).error
        = some (.wrapped errUnmarshalError (.jsonError eC)) ∧
      isTransportErr (CreateHyperdriveConfig (fun _ => .ok rawC) rc cp).error
        = false ∧
      (CreateHyperdriveConfig (fun _ => .ok rawC) rc cp).value = {}) ∧
    ((GetHyperdriveConfig (fun _ => .ok rawG) rc gid).error
        = some (.wrapped errUnmarshalError (.jsonError eG)) ∧
      isTransportErr (GetHyperdriveConfig (fun _ => .ok rawG) rc gid).error
        = false ∧
      (GetHyperdriveConfig (fun _ => .ok rawG) rc gid).value = {}) ∧
    ((UpdateHyperdriveConfig (fun _ => .ok rawU) rc up).error
        = some (.wrapped errUnmarshalError (.jsonError eU)) ∧
      isTransportErr (UpdateHyperdriveConfig (fun _ => .ok rawU) rc up).error
        = false ∧
      (UpdateHyperdriveConfig (fun _ => .ok rawU) rc up).value = {}) := by
  simp [ListHyperdriveConfigs, CreateHyperdriveConfig, GetHyperdriveConfig,
    UpdateHyperdriveConfig, hacc, hn, hp, hg, hu, hL, hC, hG, hU,
    isTransportErr]

/-- Witness for C4 at a collaborator that returns malformed bytes. -/
theorem hyperdrive_decode_error_marked_witness :
    ((ListHyperdriveConfigs (fun _ => .ok (.invalid "unexpected end of JSON input"))
        ⟨"a"⟩ {}).error
      = some (.wrapped "failed to unmarshal filters JSON data"
          (.jsonError "unexpected end of JSON input")) ∧
      isTransportErr (ListHyperdriveConfigs
        (fun _ => .ok (.invalid "unexpected end of JSON input")) ⟨"a"⟩ {}).error
        = false ∧
      (ListHyperdriveConfigs (fun _ => .ok (.invalid "unexpected end of JSON input"))
        ⟨"a"⟩ {}).value = []) ∧
    ((CreateHyperdriveConfig (fun _ => .ok (.invalid "unexpected end of JSON input"))
        ⟨"a"⟩ { Name := "n", Password := "p" }).error
      = some (.wrapped errUnmarshalError
          (.jsonError "unexpected end of JSON input")) ∧
      isTransportErr (CreateHyperdriveConfig
        (fun _ => .ok (.invalid "unexpected end of JSON input")) ⟨"a"⟩
        { Name := "n", Password := "p" }).error = false ∧
      (CreateHyperdriveConfig (fun _ => .ok (.invalid "unexpected end of JSON input"))
        ⟨"a"⟩ { Name := "n", Password := "p" }).value = {}) ∧
    ((GetHyperdriveConfig (fun _ => .ok (.invalid "unexpected end of JSON input"))
        ⟨"a"⟩ "h1").error
      = some (.wrapped errUnmarshalError
          (.jsonError "unexpected end of JSON input")) ∧
      isTransportErr (GetHyperdriveConfig
        (fun _ => .ok (.invalid "unexpected end of JSON input")) ⟨"a"⟩ "h1").error
        = false ∧
      (GetHyperdriveConfig (fun _ => .ok (.invalid "unexpected end of JSON input"))
        ⟨"a"⟩ "h1").value = {}) ∧
    ((UpdateHyperdriveConfig (fun _ => .ok (.invalid "unexpected end of JSON input"))
        ⟨"a"⟩ { HyperdriveID := "h1" }).error
      = some (.wrapped errUnmarshalError
          (.jsonError "unexpected end of JSON input")) ∧
      isTransportErr (UpdateHyperdriveConfig
        (fun _ => .ok (.invalid "unexpected end of JSON input")) ⟨"a"⟩
        { HyperdriveID := "h1" }).error = false ∧
      (UpdateHyperdriveConfig (fun _ => .ok (.invalid "unexpected end of JSON input"))
        ⟨"a"⟩ { HyperdriveID := "h1" }).value = {}) :=
  hyperdrive_decode_error_marked ⟨"a"⟩
    (.invalid "unexpected end of JSON input")
    (.invalid "unexpected end of JSON input")
    (.invalid "unexpected end of JSON input")
    (.invalid "unexpected end of JSON input")
    "unexpected end of JSON input" "unexpected end of JSON input"
    "unexpected end of JSON input" "unexpected end of JSON input"
    { Name := "n", Password := "p" } { HyperdriveID := "h1" } "h1"
    (by decide) (by decide) (by decide) (by decide) (by decide)
    rfl rfl rfl rfl

/-- C5: a stub returning the envelope with result list
`[{id: a1}, {id: a2}]` makes list return exactly those two configs in
order with no error, and a stub returning the envelope with result
`{id: h1, name: db1}` makes get return that config with zero-value
origin and caching substructures and no error. -/
theorem hyperdrive_list_get_concrete_results :
    (ListHyperdriveConfigs
      (fun _ => .ok (.valid (.obj [("result", .arr
        [.obj [("id", .str "a1")], .obj [("id", .str "a2")]])])))
      ⟨"acct"⟩ {}).value = [{ ID := "a1" }, { ID := "a2" }] ∧
    (ListHyperdriveConfigs
      (fun _ => .ok (.valid (.obj [("result", .arr
        [.obj [("id", .str "a1")], .obj [("id", .str "a2")]])])))
      ⟨"acct"⟩ {}).error = none ∧
    (GetHyperdriveConfig
      (fun _ => .ok (.valid (.obj [("result", .obj
        [("id", .str "h1"), ("name", .str "db1")])])))
      ⟨"acct"⟩ "h1").value
      = { ID := "h1", Name := "db1", Origin := {}, Caching := {} } ∧
    (GetHyperdriveConfig
      (fun _ => .ok (.valid (.obj [("result", .obj
        [("id", .str "h1"), ("name", .str "db1")])])))
      ⟨"acct"⟩ "h1").error = none := by
  decide

/-- C8: whenever an operation returns an error, its value is the zero
value of the result type: the empty list for list, the zero config for
create, get and update; no partial result accompanies an error. -/
theorem hyperdrive_error_zero_value (apiL apiC apiG apiU : ApiClient)
    (rcL rcC rcG rcU : ResourceContainer) (lp : ListHyperdriveConfigParams)
    (cp : CreateHyperdriveConfigParams) (up : UpdateHyperdriveConfigParams)
    (gid : String)
    (hL : ¬ (ListHyperdriveConfigs apiL rcL lp).error = none)
    (hC : ¬ (CreateHyperdriveConfig apiC rcC cp).error = none)
    (hG : ¬ (GetHyperdriveConfig apiG rcG gid).error = none)
    (hU : ¬ (UpdateHyperdriveConfig apiU rcU up).error = none) :
    (ListHyperdriveConfigs apiL rcL lp).value = [] ∧
    (CreateHyperdriveConfig apiC rcC cp).value = {} ∧
    (GetHyperdriveConfig apiG rcG gid).value = {} ∧
    (UpdateHyperdriveConfig apiU rcU up).value = {} :=
  ⟨(list_error_or_zero apiL rcL lp).resolve_left hL,
    (create_error_or_zero apiC rcC cp).resolve_left hC,
    (get_error_or_zero apiG rcG gid).resolve_left hG,
    (update_error_or_zero apiU rcU up).resolve_left hU⟩

/-- Witness for C8 at a collaborator that always fails. -/
theorem hyperdrive_error_zero_value_witness :
    (ListHyperdriveConfigs (fun _ => .error "down") ⟨"a"⟩ {}).value = [] ∧
    (CreateHyperdriveConfig (fun _ => .error "down") ⟨"a"⟩
      { Name := "n", Password := "p" }).value = {} ∧
    (GetHyperdriveConfig (fun _ => .error "down") ⟨"a"⟩ "h1").value = {} ∧
    (UpdateHyperdriveConfig (fun _ => .error "down") ⟨"a"⟩
      { HyperdriveID := "h1" }).value = {} :=
  hyperdrive_error_zero_value (fun _ => .error "down") (fun _ => .error "down")
    (fun _ => .error "down") (fun _ => .error "down") ⟨"a"⟩ ⟨"a"⟩ ⟨"a"⟩ ⟨"a"⟩
    {} { Name := "n", Password := "p" } { HyperdriveID := "h1" } "h1"
    (by decide) (by decide) (by decide) (by decide)

/-- C6: the update operation places the config id in the request path
only; the serialized body has exactly the keys name, password, origin
and caching, and does not depend on the `HyperdriveID` field. -/
theorem hyperdrive_update_id_path_only (api : ApiClient)
    (rc : ResourceContainer) (up : UpdateHyperdriveConfigParams) (x : String)
    (hacc : ¬ rc.Identifier = "") (hu : ¬ up.HyperdriveID = "") :
    (UpdateHyperdriveConfig api rc up).calls
      = [{ method := "PUT",
           uri := hyperdriveConfigURI rc.Identifier up.HyperdriveID,
           body := some (marshalUpdateParams up) }] ∧
    jsonKeys (marshalUpdateParams up)
      = ["name", "password", "origin", "caching"] ∧
    marshalUpdateParams { up with HyperdriveID := x } = marshalUpdateParams up :=
  ⟨update_calls_eq api rc up hacc hu, rfl, rfl⟩

/-- Witness for C6 at a concrete update parameter value. -/
theorem hyperdrive_update_id_path_only_witness :
    (UpdateHyperdriveConfig (fun _ => .error "down") ⟨"a"⟩
        { HyperdriveID := "h1", Name := "n", Password := "p" }).calls
      = [{ method := "PUT",
           uri := hyperdriveConfigURI "a" "h1",
           body := some (marshalUpdateParams
             { HyperdriveID := "h1", Name := "n", Password := "p" }) }] ∧
    jsonKeys (marshalUpdateParams
        { HyperdriveID := "h1", Name := "n", Password := "p" })
      = ["name", "password", "origin", "caching"] ∧
    marshalUpdateParams { HyperdriveID := "other", Name := "n", Password := "p" }
      = marshalUpdateParams { HyperdriveID := "h1", Name := "n", Password := "p" } :=
  hyperdrive_update_id_path_only (fun _ => .error "down") ⟨"a"⟩
    { HyperdriveID := "h1", Name := "n", Password := "p" } "other"
    (by decide) (by decide)

/-- C7: every operation uses the fixed URL scheme rooted at the account
collection URI, appending the config id exactly for get, update and
delete, with verbs GET, POST, GET, PUT, DELETE and a JSON body only for
create and update. -/
theorem hyperdrive_url_scheme_verbs (api : ApiClient) (rc : ResourceContainer)
    (lp : ListHyperdriveConfigParams) (cp : CreateHyperdriveConfigParams)
    (up : UpdateHyperdriveConfigParams) (gid did : String)
    (hacc : ¬ rc.Identifier = "") (hn : ¬ cp.Name = "")
    (hp : ¬ cp.Password = "") (hg : ¬ gid = "") (hu : ¬ up.HyperdriveID = "")
    (hd : ¬ did = "") :
    (ListHyperdriveConfigs api rc lp).calls
      = [{ method := "GET", uri := hyperdriveConfigsURI rc.Identifier,
           body := none }] ∧
    (CreateHyperdriveConfig api rc cp).calls
      = [{ method := "POST", uri := hyperdriveConfigsURI rc.Identifier,
           body := some (marshalCreateParams cp) }] ∧
    (GetHyperdriveConfig api rc gid).calls
      = [{ method := "GET", uri := hyperdriveConfigURI rc.Identifier gid,
           body := none }] ∧
    (UpdateHyperdriveConfig api rc up).calls
      = [{ method := "PUT",
           uri := hyperdriveConfigURI rc.Identifier up.HyperdriveID,
           body := some (marshalUpdateParams up) }] ∧
    (DeleteHyperdriveConfig api rc did).calls
      = [{ method := "DELETE", uri := hyperdriveConfigURI rc.Identifier did,
           body := none }] ∧
    hyperdriveConfigsURI rc.Identifier
      = "/accounts/" ++ rc.Identifier ++ "/hyperdrive/configs" ∧
    hyperdriveConfigURI rc.Identifier gid
      = hyperdriveConfigsURI rc.Identifier ++ "/" ++ gid :=
  ⟨list_calls_eq api rc lp hacc, create_calls_eq api rc cp hacc hn hp,
    get_calls_eq api rc gid hacc hg, update_calls_eq api rc up hacc hu,
    delete_calls_eq api rc did hacc hd, rfl, rfl⟩

/-- Witness for C7 at concrete inputs. -/
theorem hyperdrive_url_scheme_verbs_witness :
    (ListHyperdriveConfigs (fun _ => .error "down") ⟨"a"⟩ {}).calls
      = [{ method := "GET", uri := hyperdriveConfigsURI "a", body := none }] ∧
    (CreateHyperdriveConfig (fun _ => .error "down") ⟨"a"⟩
        { Name := "n", Password := "p" }).calls
      = [{ method := "POST", uri := hyperdriveConfigsURI "a",
           body := some (marshalCreateParams { Name := "n", Password := "p" }) }] ∧
    (GetHyperdriveConfig (fun _ => .error "down") ⟨"a"⟩ "h1").calls
      = [{ method := "GET", uri := hyperdriveConfigURI "a" "h1",
           body := none }] ∧
    (UpdateHyperdriveConfig (fun _ => .error "down") ⟨"a"⟩
        { HyperdriveID := "h1" }).calls
      = [{ method := "PUT", uri := hyperdriveConfigURI "a" "h1",
           body := some (marshalUpdateParams { HyperdriveID := "h1" }) }] ∧
    (DeleteHyperdriveConfig (fun _ => .error "down") ⟨"a"⟩ "h1").calls
      = [{ method := "DELETE", uri := hyperdriveConfigURI "a" "h1",
           body := none }] ∧
    hyperdriveConfigsURI "a" = "/accounts/" ++ "a" ++ "/hyperdrive/configs" ∧
    hyperdriveConfigURI "a" "h1" = hyperdriveConfigsURI "a" ++ "/" ++ "h1" :=
  hyperdrive_url_scheme_verbs (fun _ => .error "down") ⟨"a"⟩ {}
    { Name := "n", Password := "p" } { HyperdriveID := "h1" } "h1" "h1"
    (by decide) (by decide) (by decide) (by decide) (by decide) (by decide)

/-- C9: the caching `disabled` field is tri-state: marshaling then
unmarshaling a `HyperdriveConfigCaching` value restores it exactly, and
the `disabled` key is present in the serialization precisely when the
field is not the nil pointer, so explicit `false` is never collapsed
into absence. -/
theorem hyperdrive_caching_tristate_roundtrip (c : HyperdriveConfigCaching) :
    decodeCaching (marshalCaching c) = .ok c ∧
    ("disabled" ∈ jsonKeys (marshalCaching c) ↔ ¬ c.Disabled = none) := by
  obtain ⟨d, ma, sw⟩ := c
  cases d <;> by_cases hma : ma = 0 <;> by_cases hsw : sw = 0 <;>
    simp [marshalCaching, decodeCaching, decodeCachingInto, cachingSetField,
      decodeIntField, jsonKeys, hma, hsw] <;> rfl

/-- Witness for C9 at the three states of the `disabled` field. -/
theorem hyperdrive_caching_tristate_roundtrip_witness :
    (decodeCaching (marshalCaching { Disabled := some false, MaxAge := 30 })
        = .ok { Disabled := some false, MaxAge := 30 } ∧
      ("disabled" ∈ jsonKeys (marshalCaching
          { Disabled := some false, MaxAge := 30 }) ↔
        ¬ ({ Disabled := some false, MaxAge := 30 } :
            HyperdriveConfigCaching).Disabled = none)) ∧
    (decodeCaching (marshalCaching { Disabled := some true })
        = .ok { Disabled := some true } ∧
      ("disabled" ∈ jsonKeys (marshalCaching { Disabled := some true }) ↔
        ¬ ({ Disabled := some true } : HyperdriveConfigCaching).Disabled
          = none)) ∧
    (decodeCaching (marshalCaching { Disabled := none })
        = .ok { Disabled := none } ∧
      ("disabled" ∈ jsonKeys (marshalCaching { Disabled := none }) ↔
        ¬ ({ Disabled := none } : HyperdriveConfigCaching).Disabled = none)) :=
  ⟨hyperdrive_caching_tristate_roundtrip { Disabled := some false, MaxAge := 30 },
    hyperdrive_caching_tristate_roundtrip { Disabled := some true },
    hyperdrive_caching_tristate_roundtrip { Disabled := none }⟩

/-- C10: on a collaborator failure, delete returns the error wrapped
behind `errMakeRequestError`, while list, create, get and update return
the collaborator error unwrapped; matching against the wrapping marker
succeeds only for delete. -/
theorem hyperdrive_delete_wraps_transport (e : String)
    (rc : ResourceContainer) (lp : ListHyperdriveConfigParams)
    (cp : CreateHyperdriveConfigParams) (up : UpdateHyperdriveConfigParams)
    (gid did : String) (hacc : ¬ rc.Identifier = "") (hn : ¬ cp.Name = "")
    (hp : ¬ cp.Password = "") (hg : ¬ gid = "") (hu : ¬ up.HyperdriveID = "")
    (hd : ¬ did = "") :
    (DeleteHyperdriveConfig (fun _ => .error e) rc did).error
      = some (.wrapped errMakeRequestError (.transport e)) ∧
    (ListHyperdriveConfigs (fun _ => .error e) rc lp).error
      = some (.transport e) ∧
    (CreateHyperdriveConfig (fun _ => .error e) rc cp).error
      = some (.transport e) ∧
    (GetHyperdriveConfig (fun _ => .error e) rc gid).error
      = some (.transport e) ∧
    (UpdateHyperdriveConfig (fun _ => .error e) rc up).error
      = some (.transport e) ∧
    isWrappedWith errMakeRequestError
      (DeleteHyperdriveConfig (fun _ => .error e) rc did).error = true ∧
    isWrappedWith errMakeRequestError
      (ListHyperdriveConfigs (fun _ => .error e) rc lp).error = false ∧
    isWrappedWith errMakeRequestError
      (CreateHyperdriveConfig (fun _ => .error e) rc cp).error = false ∧
    isWrappedWith errMakeRequestError
      (GetHyperdriveConfig (fun _ => .error e) rc gid).error = false ∧
    isWrappedWith errMakeRequestError
      (UpdateHyperdriveConfig (fun _ => .error e) rc up).error = false := by
  simp [DeleteHyperdriveConfig, ListHyperdriveConfigs, CreateHyperdriveConfig,
    GetHyperdriveConfig, UpdateHyperdriveConfig, hacc, hn, hp, hg, hu, hd,
    isWrappedWith]

/-- Witness for C10 at a concrete collaborator failure. -/
theorem hyperdrive_delete_wraps_transport_witness :
    (DeleteHyperdriveConfig (fun _ => .error "connection refused") ⟨"a"⟩
        "h1").error
      = some (.wrapped errMakeRequestError (.transport "connection refused")) ∧
    (ListHyperdriveConfigs (fun _ => .error "connection refused") ⟨"a"⟩
        {}).error = some (.transport "connection refused") ∧
    (CreateHyperdriveConfig (fun _ => .error "connection refused") ⟨"a"⟩
        { Name := "n", Password := "p" }).error
      = some (.transport "connection refused") ∧
    (GetHyperdriveConfig (fun _ => .error "connection refused") ⟨"a"⟩
        "h1").error = some (.transport "connection refused") ∧
    (UpdateHyperdriveConfig (fun _ => .error "connection refused") ⟨"a"⟩
        { HyperdriveID := "h1" }).error
      = some (.transport "connection refused") ∧
    isWrappedWith errMakeRequestError
      (DeleteHyperdriveConfig (fun _ => .error "connection refused") ⟨"a"⟩
        "h1").error = true ∧
    isWrappedWith errMakeRequestError
      (ListHyperdriveConfigs (fun _ => .error "connection refused") ⟨"a"⟩
        {}).error = false ∧
    isWrappedWith errMakeRequestError
      (CreateHyperdriveConfig (fun _ => .error "connection refused") ⟨"a"⟩
        { Name := "n", Password := "p" }).error = false ∧
    isWrappedWith errMakeRequestError
      (GetHyperdriveConfig (fun _ => .error "connection refused") ⟨"a"⟩
        "h1").error = false ∧
    isWrappedWith errMakeRequestError
      (UpdateHyperdriveConfig (fun _ => .error "connection refused") ⟨"a"⟩
        { HyperdriveID := "h1" }).error = false :=
  hyperdrive_delete_wraps_transport "connection refused" ⟨"a"⟩ {}
    { Name := "n", Password := "p" } { HyperdriveID := "h1" } "h1" "h1"
    (by decide) (by decide) (by decide) (by decide) (by decide) (by decide)

end Hyperdrive
